import Mathlib

/-!
Verification of the specification of the John-Tate/amazon-sagemaker-examples
snapshot against its source.  The snapshot holds five files containing seven
Jupyter notebooks:

  * part_000, first notebook  : model-parallel MNIST training ("SM-MP-DEMO")
  * part_000, second notebook : image preprocessing for built-in algorithms
  * part_001                  : AutoGluon-Tabular from AWS Marketplace
  * tensorflow_distributed_mnist_neo.ipynb        : Neo compile and deploy
  * tensorflow_serving_pretrained_model_elastic_inference.ipynb : Elastic Inference
  * ..._neo_inf1_studio.ipynb, first notebook     : Neo compile for Inf1
  * ..._neo_inf1_studio.ipynb, second notebook    : TensorFlow Serving container

Each notebook is shallowly embedded as a list of statements in source order.
Small pieces of genuine in-notebook logic (the .lst manifest loop, the
category-id dictionary, the bucket-name pickle cell, the experiment
create-or-load cell, the train/test split) get their own executable
definitions, transcribed from the corresponding Python cells.
-/

namespace SMExamples

/-- One notebook statement, tagged with the information the claims are about.
Constructors carry enough of the Python statement to recognize it:
plain imports, local variable assignments, local file operations,
pickle reads/writes, SDK configuration objects with keyword parameters,
other SDK invocations, endpoint deploy/predict/delete calls (endpoints are
numbered per notebook in order of deployment), calls into functions defined
in other files of the repository, shell or subprocess invocations of external
tools with their command-line parameters, and thread/process/synchronization
creation (no notebook contains one, but the constructor keeps the property
expressible rather than true by construction). -/
inductive Stmt where
  | importPy (modName : String)
  | assign (varName : String)
  | localFileOp (desc : String)
  | readPickle (path : String)
  | writePickle (path : String)
  | sdkConfig (api : String) (params : List (String × String))
  | sdkCall (api : String)
  | deployEndpoint (ep : Nat)
  | predictCall (ep : Nat)
  | deleteEndpoint (ep : Nat)
  | callRepoFunction (modFile : String) (funcName : String)
  | shellExternal (tool : String) (params : List (String × String))
  | spawnConcurrency (desc : String)
deriving DecidableEq

/-- part_000, first notebook: SageMaker distributed model-parallel MNIST
training job.  Transcribed cell by cell. -/
def modelParallelNb : List Stmt := [
  Stmt.shellExternal "pip" [("install", "sagemaker-experiments")],
  Stmt.shellExternal "pip" [("install", "sagemaker --upgrade")],
  Stmt.importPy "sagemaker",
  Stmt.importPy "smexperiments",
  Stmt.importPy "boto3",
  Stmt.sdkCall "get_execution_role",
  Stmt.assign "session",
  Stmt.shellExternal "cat" [("file", "utils/pt_mnist.py")],
  Stmt.assign "sagemaker_session",
  Stmt.assign "mpioptions",
  Stmt.sdkCall "Experiment.list",
  Stmt.sdkCall "Experiment.create_or_load",
  Stmt.sdkCall "Trial.create",
  Stmt.sdkConfig "PyTorch" [("entry_point", "pt_mnist.py"), ("source_dir", "utils"),
    ("instance_type", "ml.p3.16xlarge"), ("framework_version", "1.6.0"),
    ("py_version", "py36"), ("instance_count", "1"),
    ("microbatches", "4"), ("placement_strategy", "spread"),
    ("pipeline", "interleaved"), ("optimize", "speed"), ("partitions", "2"),
    ("ddp", "True"), ("mpi_enabled", "True"), ("processes_per_host", "2"),
    ("base_job_name", "SMD-MP-demo")],
  Stmt.sdkCall "fit"]

/-- part_000, second notebook: preprocessing images for the built-in
image-classification algorithm.  Transcribed cell by cell.  The
create-or-load bucket cell reads the pickle when it exists, otherwise
creates a bucket and writes the pickle; both branch bodies are listed. -/
def preprocessingNb : List Stmt := [
  Stmt.importPy "uuid",
  Stmt.importPy "boto3",
  Stmt.importPy "shutil",
  Stmt.importPy "urllib",
  Stmt.importPy "pickle",
  Stmt.importPy "pathlib",
  Stmt.importPy "sagemaker",
  Stmt.importPy "subprocess",
  Stmt.readPickle "pickled_data/category_labels.pickle",
  Stmt.assign "category_ids",
  Stmt.assign "image_paths",
  Stmt.localFileOp "append one tab-separated line per jpg to split .lst files",
  Stmt.sdkCall "urllib.request.urlretrieve",
  Stmt.shellExternal "python im2rec.py"
    [("list", "true"), ("recursive", "true"), ("args", "train data_structured/train")],
  Stmt.shellExternal "python im2rec.py"
    [("list", "true"), ("recursive", "true"), ("args", "val data_structured/val")],
  Stmt.localFileOp "mkdir data_recordio",
  Stmt.localFileOp "copy train.lst to data_recordio",
  Stmt.localFileOp "copy val.lst to data_recordio",
  Stmt.shellExternal "python im2rec.py"
    [("resize", "224"), ("quality", "90"), ("num-thread", "16"),
     ("args", "data_recordio/train data_structured/train")],
  Stmt.shellExternal "python im2rec.py"
    [("resize", "224"), ("quality", "90"), ("num-thread", "16"),
     ("args", "data_recordio/val data_structured/val")],
  Stmt.readPickle "pickled_data/builtin_bucket_name.pickle",
  Stmt.sdkCall "s3.create_bucket",
  Stmt.writePickle "pickled_data/builtin_bucket_name.pickle",
  Stmt.sdkCall "S3Uploader.upload",
  Stmt.sdkCall "S3Uploader.upload"]

/-- part_001: AutoGluon-Tabular in AWS Marketplace.  Transcribed cell by
cell.  The notebook imports AlgorithmArnProvider from the repository module
src/algorithm_arns.py and calls its get_algorithm_arn static method. -/
def autogluonNb : List Stmt := [
  Stmt.importPy "os",
  Stmt.importPy "boto3",
  Stmt.importPy "sagemaker",
  Stmt.importPy "numpy",
  Stmt.importPy "pandas",
  Stmt.importPy "sklearn.metrics",
  Stmt.sdkCall "Session",
  Stmt.sdkCall "default_bucket",
  Stmt.sdkCall "get_execution_role",
  Stmt.assign "compatible_training_instance_type",
  Stmt.assign "compatible_inference_instance_type",
  Stmt.importPy "src.algorithm_arns",
  Stmt.callRepoFunction "src/algorithm_arns.py" "AlgorithmArnProvider.get_algorithm_arn",
  Stmt.shellExternal "apt-get" [("args", "update -y")],
  Stmt.shellExternal "apt" [("args", "install unzip")],
  Stmt.shellExternal "aws" [("args", "s3 cp bank-additional.zip")],
  Stmt.shellExternal "unzip" [("args", "-qq -o bank-additional.zip")],
  Stmt.shellExternal "rm" [("args", "bank-additional.zip")],
  Stmt.assign "data",
  Stmt.assign "train",
  Stmt.assign "test",
  Stmt.assign "y_test",
  Stmt.assign "X_test",
  Stmt.localFileOp "train.to_csv",
  Stmt.sdkCall "upload_data",
  Stmt.localFileOp "test.to_csv",
  Stmt.sdkCall "upload_data",
  Stmt.localFileOp "X_test.to_csv",
  Stmt.sdkCall "upload_data",
  Stmt.assign "init_args",
  Stmt.assign "fit_args",
  Stmt.assign "hyperparameters",
  Stmt.assign "tags",
  Stmt.sdkConfig "AlgorithmEstimator"
    [("instance_count", "1"), ("instance_type", "ml.m5.4xlarge"),
     ("base_job_name", "autogluon"), ("train_volume_size", "100")],
  Stmt.sdkCall "fit",
  Stmt.deployEndpoint 0,
  Stmt.predictCall 0,
  Stmt.predictCall 0,
  Stmt.assign "accuracy_and_report",
  Stmt.sdkConfig "transformer"
    [("instance_count", "1"), ("instance_type", "ml.m5.4xlarge"),
     ("strategy", "MultiRecord"), ("max_payload", "6"),
     ("max_concurrent_transforms", "1")],
  Stmt.sdkCall "transform",
  Stmt.sdkCall "wait",
  Stmt.deleteEndpoint 0]

/-- tensorflow_distributed_mnist_neo.ipynb: train, deploy and invoke the
uncompiled model (endpoint 0), then compile with Neo and deploy, invoke and
delete the compiled model (endpoint 1).  The invocation cells loop ten times
over predictor.predict against the one endpoint; the loop is recorded as a
single predictCall statement.  The notebook imports the sibling repository
module utils.py and calls its convert_to helper three times. -/
def neoMnistNb : List Stmt := [
  Stmt.importPy "os",
  Stmt.importPy "sagemaker",
  Stmt.sdkCall "Session",
  Stmt.sdkCall "get_execution_role",
  Stmt.importPy "utils",
  Stmt.importPy "tensorflow",
  Stmt.sdkCall "mnist.read_data_sets",
  Stmt.callRepoFunction "utils.py" "convert_to",
  Stmt.callRepoFunction "utils.py" "convert_to",
  Stmt.callRepoFunction "utils.py" "convert_to",
  Stmt.sdkCall "upload_data",
  Stmt.shellExternal "cat" [("file", "mnist.py")],
  Stmt.sdkConfig "TensorFlow"
    [("entry_point", "mnist.py"), ("framework_version", "1.15.3"),
     ("py_version", "py3"), ("training_steps", "100"),
     ("evaluation_steps", "10"), ("instance_count", "1"),
     ("instance_type", "ml.c4.xlarge")],
  Stmt.sdkCall "fit",
  Stmt.deployEndpoint 0,
  Stmt.predictCall 0,
  Stmt.deleteEndpoint 0,
  Stmt.sdkCall "compile_model",
  Stmt.assign "image_uri",
  Stmt.deployEndpoint 1,
  Stmt.predictCall 1,
  Stmt.deleteEndpoint 1]

/-- tensorflow_serving_pretrained_model_elastic_inference.ipynb: host a
pre-trained TensorFlow Serving model on an endpoint with an Elastic
Inference accelerator. -/
def elasticInferenceNb : List Stmt := [
  Stmt.importPy "boto3",
  Stmt.assign "saved_model",
  Stmt.importPy "sagemaker",
  Stmt.sdkCall "get_execution_role",
  Stmt.sdkConfig "tensorflow.serving.Model"
    [("framework_version", "1.14")],
  Stmt.deployEndpoint 0,
  Stmt.predictCall 0,
  Stmt.assign "printed_endpoint_name",
  Stmt.deleteEndpoint 0]

/-- ..._neo_inf1_studio.ipynb, first notebook: train the MNIST model,
compile it with Neo for Inf1 and deploy, invoke and delete the endpoint.
The invocation cell loops ten times over predict against the one endpoint.
The setup and rollback cells round-trip orig_sm_version.txt on local disk. -/
def studioInf1Nb : List Stmt := [
  Stmt.importPy "sagemaker",
  Stmt.localFileOp "write orig_sm_version.txt",
  Stmt.shellExternal "pip" [("install", "sagemaker>=1.14.2,<2")],
  Stmt.shellExternal "pip" [("install", "tensorflow==1.15.4")],
  Stmt.importPy "os",
  Stmt.importPy "boto3",
  Stmt.sdkCall "Session",
  Stmt.sdkCall "get_execution_role",
  Stmt.importPy "utils",
  Stmt.importPy "tensorflow",
  Stmt.sdkCall "mnist.read_data_sets",
  Stmt.callRepoFunction "utils.py" "convert_to",
  Stmt.callRepoFunction "utils.py" "convert_to",
  Stmt.callRepoFunction "utils.py" "convert_to",
  Stmt.sdkCall "upload_data",
  Stmt.shellExternal "cat" [("file", "mnist.py")],
  Stmt.sdkConfig "TensorFlow"
    [("entry_point", "mnist.py"), ("framework_version", "1.11.0"),
     ("training_steps", "100"), ("evaluation_steps", "10"),
     ("train_instance_count", "2"), ("train_instance_type", "ml.c5.xlarge")],
  Stmt.sdkCall "fit",
  Stmt.sdkCall "compile_model",
  Stmt.deployEndpoint 0,
  Stmt.assign "numpy_bytes_serializer",
  Stmt.predictCall 0,
  Stmt.deleteEndpoint 0,
  Stmt.localFileOp "read orig_sm_version.txt",
  Stmt.shellExternal "pip" [("install", "sagemaker==orig_sm_version")],
  Stmt.localFileOp "remove orig_sm_version.txt"]

/-- ..._neo_inf1_studio.ipynb, second notebook: deploy TensorFlow Hub models
with the TensorFlow Serving container.  Both predictors (the default one and
predictor2, built from predictor.endpoint) invoke the same endpoint 0.  The
notebook imports the sibling repository module sample_utils.py and calls
four of its helpers. -/
def tfServingNb : List Stmt := [
  Stmt.shellExternal "pip" [("install", "sagemaker>=1.14.2,<2")],
  Stmt.shellExternal "pip" [("install", "opencv-python tensorflow-hub")],
  Stmt.sdkCall "get_execution_role",
  Stmt.importPy "sample_utils",
  Stmt.callRepoFunction "sample_utils.py" "tfhub_to_savedmodel",
  Stmt.shellExternal "saved_model_cli" [("show", "--all")],
  Stmt.callRepoFunction "sample_utils.py" "tfhub_to_savedmodel",
  Stmt.shellExternal "tar" [("args", "-czf mobilenet.tar.gz mobilenet/")],
  Stmt.sdkCall "upload_data",
  Stmt.sdkConfig "tensorflow.serving.Model"
    [("framework_version", "1.15.2"),
     ("SAGEMAKER_TFS_DEFAULT_MODEL_NAME", "mobilenet_v2_140_224")],
  Stmt.deployEndpoint 0,
  Stmt.callRepoFunction "sample_utils.py" "image_file_to_tensor",
  Stmt.predictCall 0,
  Stmt.callRepoFunction "sample_utils.py" "add_imagenet_labels",
  Stmt.callRepoFunction "sample_utils.py" "print_probabilities_and_labels",
  Stmt.sdkConfig "tensorflow.serving.Predictor"
    [("model_name", "mobilenet_v2_035_224")],
  Stmt.callRepoFunction "sample_utils.py" "image_file_to_tensor",
  Stmt.predictCall 0,
  Stmt.callRepoFunction "sample_utils.py" "add_imagenet_labels",
  Stmt.callRepoFunction "sample_utils.py" "print_probabilities_and_labels",
  Stmt.deleteEndpoint 0]

/-- All seven notebooks of the snapshot, in file order. -/
def notebooks : List (List Stmt) :=
  [modelParallelNb, preprocessingNb, autogluonNb, neoMnistNb,
   elasticInferenceNb, studioInf1Nb, tfServingNb]

/-- Checks the per-endpoint ordering of SDK calls in a notebook: every
predict call is preceded by the deploy of its endpoint and by no delete of
it, and every delete_endpoint call is preceded by at least one predict
against its endpoint (so a delete never precedes every predict) and by no
earlier delete of it. -/
def orderedEndpoints (l : List Stmt) : Bool :=
  l.enum.all fun p =>
    match p.2 with
    | Stmt.predictCall ep =>
        (l.enum.any fun q => decide (q.1 < p.1) && decide (q.2 = Stmt.deployEndpoint ep)) &&
        (l.enum.all fun q => !(decide (q.1 < p.1) && decide (q.2 = Stmt.deleteEndpoint ep)))
    | Stmt.deleteEndpoint ep =>
        (l.enum.any fun q => decide (q.1 < p.1) && decide (q.2 = Stmt.predictCall ep)) &&
        (l.enum.all fun q => !(decide (q.1 < p.1) && decide (q.2 = Stmt.deleteEndpoint ep)))
    | _ => true

/-- The cross-file in-repository call a statement makes, if any. -/
def crossFileCallOf : Stmt → Option (String × String)
  | Stmt.callRepoFunction m f => some (m, f)
  | _ => none

/-- All calls into functions defined in other repository files, per notebook. -/
def crossFileCalls (l : List Stmt) : List (String × String) :=
  l.filterMap crossFileCallOf

/-- Whether the statement creates a thread, a process pool, or any other
in-notebook concurrency or synchronization. -/
def isConcurrencyStmt : Stmt → Bool
  | Stmt.spawnConcurrency _ => true
  | _ => false

/-- Parallelism-related parameters a notebook hands to external tools or to
the SDK, namely the im2rec num-thread option and the MPI processes_per_host
setting; they occur only as parameters of shellExternal or sdkConfig
statements. -/
def externalParallelismParams (l : List Stmt) : List (String × String) :=
  l.foldr
    (fun s acc =>
      match s with
      | Stmt.shellExternal _ ps =>
          ps.filter (fun kv => kv.1 == "num-thread" || kv.1 == "processes_per_host") ++ acc
      | Stmt.sdkConfig _ ps =>
          ps.filter (fun kv => kv.1 == "num-thread" || kv.1 == "processes_per_host") ++ acc
      | _ => acc)
    []

/-- The pickle-based persistence statements of a notebook. -/
def pickleStmtsOf (l : List Stmt) : List Stmt :=
  l.filter fun s =>
    match s with
    | Stmt.readPickle _ => true
    | Stmt.writePickle _ => true
    | _ => false

/-- Function names defined (with a Python def) inside each source file of the
snapshot, keyed by file path.  The only def in any of the five files is
numpy_bytes_serializer in the studio notebook; the notebooks otherwise only
call functions defined elsewhere. -/
def repoSourceFiles : List (String × List String) := [
  ("aws_sagemaker_studio/sagemaker_neo_compilation_jobs/deploy_tensorflow_model_on_Inf1_instance/tensorflow_distributed_mnist_neo_inf1_studio.ipynb",
    ["numpy_bytes_serializer"]),
  ("sagemaker-python-sdk/tensorflow_serving_using_elastic_inference_with_your_own_model/tensorflow_serving_pretrained_model_elastic_inference.ipynb", []),
  ("sagemaker_neo_compilation_jobs/tensorflow_distributed_mnist/tensorflow_distributed_mnist_neo.ipynb", []),
  ("unnamed/part_000", []),
  ("unnamed/part_001", [])]

/-- The three checkpoint-sync helper functions the model-parallel notebook
refers to. -/
def syncHelperNames : List String :=
  ["aws_s3_sync", "sync_local_checkpoints_to_s3", "sync_s3_checkpoints_to_local"]

/-- Where the model-parallel notebook says the sync helpers live: its
markdown points at the training script utils/pt_mnist.py, which is not one
of the files of the snapshot. -/
def syncHelperMentionedLocation : String := "utils/pt_mnist.py"

/-! The .lst manifest generation and category-id dictionary of the
preprocessing notebook.  The Python cells are

    category_ids = (a dict sending name to idx for idx, name in
                    enumerate(sorted(category_labels.values())))

and, over the enumerated jpg paths under data_structured,

    image_id = idx zero-padded to width 10
    category = category_ids[p.parts[-2]]
    path     = p.as_posix()
    split    = p.parts[-3]
    append to the file split + ".lst" the line
      image_id, tab, category, tab, path, newline
-/

/-- A filesystem path, as its list of parts (pathlib.PurePath.parts). -/
structure ImgPath where
  parts : List String
deriving DecidableEq

/-- pathlib.PurePosixPath.as_posix for a relative path: the parts joined
with slashes. -/
def asPosix (p : ImgPath) : String := String.intercalate "/" p.parts

/-- Negative indexing from the end of the parts: partFromEnd p 1 is
p.parts[-2] (the parent directory name) and partFromEnd p 2 is
p.parts[-3] (the split directory name).  Python raises on out-of-range
indices; the notebook only applies this to paths of depth at least 4, so
the default is never exercised on real inputs. -/
def partFromEnd (p : ImgPath) (k : Nat) : String :=
  (p.parts.reverse.get? k).getD ""

/-- Python format spec 010 applied to a Nat: decimal digits, left-padded
with zeros to width 10. -/
def pad10 (n : Nat) : String :=
  let s := toString n
  String.mk (List.replicate (10 - s.length) '0') ++ s

/-- Lexicographic code-point comparison of character lists, mirroring how
Python compares str values; total, reflexive and transitive. -/
def strLexLe : List Char → List Char → Bool
  | [], _ => true
  | _ :: _, [] => false
  | a :: as, b :: bs =>
      if a.toNat < b.toNat then true
      else if b.toNat < a.toNat then false
      else strLexLe as bs

/-- Strict lexicographic code-point comparison of character lists. -/
def strLexLt : List Char → List Char → Bool
  | [], [] => false
  | [], _ :: _ => true
  | _ :: _, [] => false
  | a :: as, b :: bs =>
      if a.toNat < b.toNat then true
      else if b.toNat < a.toNat then false
      else strLexLt as bs

/-- Python str comparison, as a decidable order on String. -/
def strLe (a b : String) : Prop := strLexLe a.data b.data = true

instance : DecidableRel strLe := fun _ _ => inferInstanceAs (Decidable (_ = true))

/-- A Python dict with String keys and Nat values, as the list of its
key-value assignments in insertion order; a later assignment to the same
key overwrites an earlier one, so lookup takes the last matching entry. -/
def dictGet? (d : List (String × Nat)) (k : String) : Option Nat :=
  (d.reverse.find? fun kv => kv.1 == k).map Prod.snd

/-- sorted(category_labels.values()): the category names, sorted in Python
string order.  Insertion sort computes the same list as Python sorted: both
are stable and both order by the same total comparison. -/
def sortedNames (categoryLabels : List (String × String)) : List String :=
  List.insertionSort strLe (categoryLabels.map Prod.snd)

/-- The category_ids dict comprehension: each sorted name is assigned its
enumeration index. -/
def categoryIds (categoryLabels : List (String × String)) : List (String × Nat) :=
  (sortedNames categoryLabels).enum.map fun idxName => (idxName.2, idxName.1)

/-- One iteration of the manifest loop: the target .lst file (named after
the split directory) and the tab-separated line for the image at the given
enumeration index.  A parent directory missing from category_ids is a
Python KeyError, modelled as none. -/
def lstEntry (cids : List (String × Nat)) (idx : Nat) (p : ImgPath) :
    Option (String × String) :=
  (dictGet? cids (partFromEnd p 1)).map fun category =>
    (partFromEnd p 2 ++ ".lst",
     pad10 idx ++ "\t" ++ toString category ++ "\t" ++ asPosix p ++ "\n")

/-- The manifest loop from its current enumeration index: appends one line
per path, threading the index. -/
def lstManifestGo (cids : List (String × Nat)) :
    Nat → List ImgPath → Option (List (String × String))
  | _, [] => some []
  | idx, p :: ps =>
      match lstEntry cids idx p with
      | none => none
      | some e => (lstManifestGo cids (idx + 1) ps).map fun rest => e :: rest

/-- The whole manifest-generation cell: the (file, line) appends it performs
over the enumerated image paths, starting at index 0. -/
def lstManifest (cids : List (String × Nat)) (paths : List ImgPath) :
    Option (List (String × String)) :=
  lstManifestGo cids 0 paths

/-! The bucket-name pickle cell of the preprocessing notebook: if
pickled_data/builtin_bucket_name.pickle exists, load bucket_name from it
and create nothing; otherwise derive a fresh name from a uuid, create the
bucket, and pickle the name. -/

/-- The local pickle store the preprocessing notebook reads and writes. -/
structure LocalStore where
  builtinBucketName : Option String
deriving DecidableEq

/-- The create-or-load bucket cell, as a function of the uuid the fresh run
would draw and of the local store; returns the store after the cell, the
bucket_name variable, and whether s3.create_bucket was called. -/
def bucketCell (uuid : String) (store : LocalStore) :
    LocalStore × String × Bool :=
  match store.builtinBucketName with
  | some name => (store, name, false)
  | none =>
      let bucketName := "sagemaker-builtin-ic-" ++ uuid
      ({ builtinBucketName := some bucketName }, bucketName, true)

/-! The experiment create-or-load cell of the model-parallel notebook:
list the existing experiment names, and create SM-MP-DEMO only when the
name is not among them, otherwise load it. -/

/-- The experiment-setup cell, as a function of the existing experiment
names on the service; returns the names after the cell and how many
Experiment.create calls it made. -/
def experimentSetupCell (existing : List String) : List String × Nat :=
  if "SM-MP-DEMO" ∉ existing then (existing ++ ["SM-MP-DEMO"], 1)
  else (existing, 0)

/-! The train/test split of the AutoGluon notebook:

    data  = pd.read_csv(local_data_path)
    train = data.sample(frac=0.7, random_state=42)
    test  = data.drop(train.index)
    X_test = test.drop(columns=[the label column y])

A DataFrame is the list of its rows, each paired with its index label.
pd.read_csv assigns the RangeIndex 0..n-1, so readCsv enumerates the rows.
sample without replacement draws a list of distinct row labels (determined
by random_state=42) and returns those rows in draw order; the draw is kept
abstract as the list sel.  drop(index) removes the rows with the given
labels, and drop(columns) removes the named column from every row. -/

/-- A DataFrame row: the cells keyed by column name. -/
abbrev Row := List (String × String)

/-- pd.read_csv: rows labelled by the RangeIndex. -/
def readCsv (rows : List Row) : List (Nat × Row) := rows.enum

/-- DataFrame.sample on a RangeIndex frame: the rows at the drawn labels,
in draw order.  The draw sel is without replacement and within range; those
facts are hypotheses of the theorems, not of the definition. -/
def sampleRows (rows : List Row) (sel : List Nat) : List (Nat × Row) :=
  sel.filterMap fun i => (rows.get? i).map fun r => (i, r)

/-- DataFrame.index, as the list of row labels. -/
def rowIndex (df : List (Nat × Row)) : List Nat := df.map Prod.fst

/-- DataFrame.drop(index=...): remove the rows whose label is listed. -/
def dropByIndex (df : List (Nat × Row)) (idx : List Nat) : List (Nat × Row) :=
  df.filter fun r => !(decide (r.1 ∈ idx))

/-- DataFrame.drop(columns=[c]): remove the column from every row, keeping
every row and its label. -/
def dropColumn (df : List (Nat × Row)) (c : String) : List (Nat × Row) :=
  df.map fun r => (r.1, r.2.filter fun kv => !(kv.1 == c))

/-- train = data.sample(frac=0.7, random_state=42), with the random draw
abstracted as the label list sel. -/
def trainOf (rows : List Row) (sel : List Nat) : List (Nat × Row) :=
  sampleRows rows sel

/-- test = data.drop(train.index). -/
def testOf (rows : List Row) (sel : List Nat) : List (Nat × Row) :=
  dropByIndex (readCsv rows) (rowIndex (trainOf rows sel))

/-- X_test = test.drop(columns=[the label column y]). -/
def xTestOf (rows : List Row) (sel : List Nat) : List (Nat × Row) :=
  dropColumn (testOf rows sel) "y"

/-! Exception propagation.  No notebook contains a try/except, a retry
loop, or any error classification: each is a straight-line sequence of
calls.  The language Prog can express a handler, so that the absence of
handlers in the transcriptions is a checked fact rather than one true by
construction, and running a handler-free program returns the first error an
oracle assigns to its calls, unchanged. -/

/-- A straight-line program over fallible SDK calls, with an (unused by the
notebooks) exception handler construct. -/
inductive Prog where
  | skip
  | call (api : String)
  | seq (p q : Prog)
  | tryCatch (body handler : Prog)
deriving DecidableEq

/-- Run a program against an oracle that decides which calls fail:
sequencing stops at the first error, and tryCatch recovers from one. -/
def runProg (oracle : String → Except String Unit) : Prog → Except String Unit
  | Prog.skip => Except.ok ()
  | Prog.call a => oracle a
  | Prog.seq p q =>
      match runProg oracle p with
      | Except.ok _ => runProg oracle q
      | Except.error e => Except.error e
  | Prog.tryCatch body handler =>
      match runProg oracle body with
      | Except.ok _ => Except.ok ()
      | Except.error _ => runProg oracle handler

/-- The calls of a program, in execution order. -/
def callsOf : Prog → List String
  | Prog.skip => []
  | Prog.call a => [a]
  | Prog.seq p q => callsOf p ++ callsOf q
  | Prog.tryCatch body handler => callsOf body ++ callsOf handler

/-- Whether the program contains no tryCatch. -/
def handlerFree : Prog → Bool
  | Prog.skip => true
  | Prog.call _ => true
  | Prog.seq p q => handlerFree p && handlerFree q
  | Prog.tryCatch _ _ => false

/-- The first error the oracle assigns to a list of calls, or ok. -/
def firstError (oracle : String → Except String Unit) :
    List String → Except String Unit
  | [] => Except.ok ()
  | a :: as =>
      match oracle a with
      | Except.ok _ => firstError oracle as
      | Except.error e => Except.error e

/-- A straight sequence of calls, as a program. -/
def progOfCalls : List String → Prog
  | [] => Prog.skip
  | a :: as => Prog.seq (Prog.call a) (progOfCalls as)

/-- The external calls a statement makes, for the exception-flow model. -/
def stmtCallName : Stmt → Option String
  | Stmt.sdkCall api => some api
  | Stmt.deployEndpoint _ => some "deploy"
  | Stmt.predictCall _ => some "predict"
  | Stmt.deleteEndpoint _ => some "delete_endpoint"
  | Stmt.shellExternal tool _ => some tool
  | Stmt.callRepoFunction _ f => some f
  | _ => none

/-- A notebook as a straight-line program over its fallible calls; the
transcriptions contain no handler because the notebooks contain no
try/except. -/
def progOfNb (l : List Stmt) : Prog :=
  progOfCalls (l.filterMap stmtCallName)

/-- The seven notebook programs. -/
def notebookProgs : List Prog := notebooks.map progOfNb

/-! Concrete inputs used to instantiate the theorems below. -/

/-- A concrete category_ids dict, as produced for the two-category dataset
with names bird and cat. -/
def cidsExample : List (String × Nat) := [("bird", 0), ("cat", 1)]

/-- Two concrete image paths under data_structured, one per split. -/
def pathsExample : List ImgPath :=
  [{ parts := ["data_structured", "train", "cat", "001.jpg"] },
   { parts := ["data_structured", "val", "bird", "002.jpg"] }]

/-- The manifest the loop writes for those inputs. -/
def manifestExample : List (String × String) :=
  [("train.lst", "0000000000\t1\tdata_structured/train/cat/001.jpg\n"),
   ("val.lst", "0000000001\t0\tdata_structured/val/bird/002.jpg\n")]

/-- A concrete category_labels dict with two distinct category names. -/
def catLabelsExample : List (String × String) :=
  [("n02123045", "cat"), ("n01503061", "bird")]

/-- A concrete three-row CSV with a label column y. -/
def rowsExample : List Row :=
  [[("age", "31"), ("y", "yes")],
   [("age", "42"), ("y", "no")],
   [("age", "53"), ("y", "yes")]]

/-- An oracle under which every external call fails. -/
def failingOracle : String → Except String Unit :=
  fun _ => Except.error "AccessDeniedException"

end SMExamples

namespace SMExamples

/-! Helper lemmas. -/

/-- firstError distributes over concatenation of call lists. -/
theorem firstError_append (oracle : String → Except String Unit)
    (l₁ l₂ : List String) :
    firstError oracle (l₁ ++ l₂) =
      match firstError oracle l₁ with
      | Except.ok _ => firstError oracle l₂
      | Except.error e => Except.error e := by
  induction l₁ with
  | nil => rfl
  | cons a as ih =>
      simp only [List.cons_append, firstError]
      cases oracle a with
      | ok u => exact ih
      | error e => rfl

/-- A handler-free program returns exactly the first error among its calls,
unchanged, or ok when none fails. -/
theorem runProg_eq_firstError (oracle : String → Except String Unit) :
    ∀ p : Prog, handlerFree p = true →
      runProg oracle p = firstError oracle (callsOf p) := by
  intro p
  induction p with
  | skip => intro _; rfl
  | call a =>
      intro _
      simp only [runProg, callsOf, firstError]
      cases oracle a with
      | ok u => cases u; rfl
      | error e => rfl
  | seq p q ihp ihq =>
      intro h
      simp only [handlerFree, Bool.and_eq_true] at h
      simp only [runProg, callsOf, firstError_append, ihp h.1, ihq h.2]
  | tryCatch body handler ihb ihh =>
      intro h
      simp [handlerFree] at h

end SMExamples

namespace SMExamples

/-! The claims. -/

/-- Claim C1, counterexample: the manifest-generation loop is deterministic
in-repo logic whose output is checkable by a unit test.  On a concrete
category dict and two concrete image paths it produces exactly these two
tab-separated manifest lines, with zero-padded index, category id taken
from the parent directory, and relative path; no SDK call is involved.
This refutes the claim that every value a notebook computes is mere
marshaling of configuration into SDK calls. -/
theorem claim_C1_counterexample :
    lstManifest cidsExample pathsExample = some manifestExample ∧
    manifestExample.length = 2 := by
  exact ⟨rfl, rfl⟩

/-- Claim C1, amended: every notebook value other than the preprocessing
manifest loop and the category-id dict is marshaled configuration, but the
manifest loop itself is a deterministic data transformation with a
unit-testable closed-form specification: when it succeeds, it emits exactly
one line per enumerated jpg path, whose line k carries the zero-padded
index k, the category id looked up from the parent directory name of path
k, and the posix form of path k, appended to the .lst file named after the
split directory of path k. -/
theorem claim_C1_theorem :
    ∀ (cids : List (String × Nat)) (paths : List ImgPath)
      (out : List (String × String)),
      lstManifest cids paths = some out →
      out.length = paths.length ∧
      ∀ k p, paths.get? k = some p →
        ∃ cat, dictGet? cids (partFromEnd p 1) = some cat ∧
          out.get? k = some (partFromEnd p 2 ++ ".lst",
            pad10 k ++ "\t" ++ toString cat ++ "\t" ++ asPosix p ++ "\n") := by
  intro cids paths out h
  have main :
      ∀ (ps : List ImgPath) (start : Nat) (o : List (String × String)),
        lstManifestGo cids start ps = some o →
        o.length = ps.length ∧
        ∀ k p, ps.get? k = some p →
          ∃ cat, dictGet? cids (partFromEnd p 1) = some cat ∧
            o.get? k = some (partFromEnd p 2 ++ ".lst",
              pad10 (start + k) ++ "\t" ++ toString cat ++ "\t" ++ asPosix p ++ "\n") := by
    intro ps
    induction ps with
    | nil =>
        intro start o ho
        simp only [lstManifestGo, Option.some.injEq] at ho
        subst ho
        exact ⟨rfl, by intro k p hp; simp at hp⟩
    | cons p ps ih =>
        intro start o ho
        simp only [lstManifestGo] at ho
        cases he : lstEntry cids start p with
        | none => rw [he] at ho; cases ho
        | some e =>
            rw [he] at ho
            cases hrest : lstManifestGo cids (start + 1) ps with
            | none => rw [hrest] at ho; cases ho
            | some rest =>
                rw [hrest] at ho
                simp only [Option.map_some', Option.some.injEq] at ho
                subst ho
                obtain ⟨hlen, hk⟩ := ih (start + 1) rest hrest
                refine ⟨by simp [hlen], ?_⟩
                intro k q hq
                cases k with
                | zero =>
                    simp only [List.get?, Option.some.injEq] at hq
                    subst hq
                    simp only [lstEntry] at he
                    cases hc : dictGet? cids (partFromEnd p 1) with
                    | none => rw [hc] at he; cases he
                    | some cat =>
                        rw [hc] at he
                        simp only [Option.map_some', Option.some.injEq] at he
                        refine ⟨cat, rfl, ?_⟩
                        simp [← he, Nat.add_zero]
                | succ k =>
                    simp only [List.get?] at hq ⊢
                    obtain ⟨cat, hcat, hout⟩ := hk k q hq
                    refine ⟨cat, hcat, ?_⟩
                    have harith : start + (k + 1) = start + 1 + k := by omega
                    rw [harith]
                    exact hout
  have := main paths 0 out h
  simpa using this

/-- Claim C1, witness: the closed-form specification instantiated at the
concrete manifest of the counterexample. -/
theorem claim_C1_witness :
    lstManifest cidsExample pathsExample = some manifestExample ∧
    manifestExample.length = pathsExample.length :=
  ⟨rfl, (claim_C1_theorem cidsExample pathsExample manifestExample rfl).1⟩

/-- Claim C2, counterexample: the bucket-creation cell does persist state
across runs.  A first run from an empty store (uuid 7c41) creates a bucket
and pickles its name; a second run with a different uuid (3f9a) reads the
pickle back and reuses the stored name instead of creating a new bucket.
This refutes the claim that nothing written to local disk by one run is
read back by a later run to alter behaviour. -/
theorem claim_C2_counterexample :
    (bucketCell "7c41" { builtinBucketName := none }).2.2 = true ∧
    bucketCell "3f9a" (bucketCell "7c41" { builtinBucketName := none }).1 =
      ((bucketCell "7c41" { builtinBucketName := none }).1,
       "sagemaker-builtin-ic-7c41", false) := by
  exact ⟨rfl, rfl⟩

/-- Claim C2, amended: only the preprocessing notebook defines pickle-based
persistent state (the category_labels load and the bucket-name
create-or-load); the other six notebooks have no pickle statement, and the
bucket cell, on any store that already holds a name, returns that stored
name, leaves the store unchanged, and creates no bucket. -/
theorem claim_C2_theorem :
    notebooks.map pickleStmtsOf =
      [[],
       [Stmt.readPickle "pickled_data/category_labels.pickle",
        Stmt.readPickle "pickled_data/builtin_bucket_name.pickle",
        Stmt.writePickle "pickled_data/builtin_bucket_name.pickle"],
       [], [], [], [], []] ∧
    ∀ uuid store name, store.builtinBucketName = some name →
      bucketCell uuid store = (store, name, false) := by
  refine ⟨rfl, ?_⟩
  intro uuid store name h
  simp [bucketCell, h]

/-- Claim C2, witness: the amended reload behaviour at a concrete store
that already holds a bucket name. -/
theorem claim_C2_witness :
    bucketCell "3f9a" { builtinBucketName := some "sagemaker-builtin-ic-7c41" } =
      ({ builtinBucketName := some "sagemaker-builtin-ic-7c41" },
       "sagemaker-builtin-ic-7c41", false) :=
  claim_C2_theorem.2 "3f9a" { builtinBucketName := some "sagemaker-builtin-ic-7c41" }
    "sagemaker-builtin-ic-7c41" rfl

/-- Claim C3, counterexample: the AutoGluon notebook calls
AlgorithmArnProvider.get_algorithm_arn, defined in the repository module
src/algorithm_arns.py, refuting the claim that no notebook calls code
defined in another file of this repository. -/
theorem claim_C3_counterexample :
    Stmt.callRepoFunction "src/algorithm_arns.py"
      "AlgorithmArnProvider.get_algorithm_arn" ∈ autogluonNb := by
  decide

/-- Claim C3, amended: notebooks do compose with in-repo code.  The
complete list of cross-file in-repository calls, notebook by notebook: the
AutoGluon notebook calls AlgorithmArnProvider.get_algorithm_arn from
src/algorithm_arns.py, the two Neo MNIST notebooks call convert_to from
their sibling utils.py three times each, and the TensorFlow Serving
container notebook calls four helpers from its sibling sample_utils.py;
the other notebooks make none. -/
theorem claim_C3_theorem :
    notebooks.map crossFileCalls =
      [[],
       [],
       [("src/algorithm_arns.py", "AlgorithmArnProvider.get_algorithm_arn")],
       [("utils.py", "convert_to"), ("utils.py", "convert_to"),
        ("utils.py", "convert_to")],
       [],
       [("utils.py", "convert_to"), ("utils.py", "convert_to"),
        ("utils.py", "convert_to")],
       [("sample_utils.py", "tfhub_to_savedmodel"),
        ("sample_utils.py", "tfhub_to_savedmodel"),
        ("sample_utils.py", "image_file_to_tensor"),
        ("sample_utils.py", "add_imagenet_labels"),
        ("sample_utils.py", "print_probabilities_and_labels"),
        ("sample_utils.py", "image_file_to_tensor"),
        ("sample_utils.py", "add_imagenet_labels"),
        ("sample_utils.py", "print_probabilities_and_labels")]] := by
  rfl

/-- Claim C4: in every notebook, every predict call is preceded by the
deploy that created its endpoint and never follows the delete of that
endpoint, and every delete_endpoint call is preceded by at least one
predict against that endpoint, so no delete precedes every predict. -/
theorem claim_C4_theorem : notebooks.all orderedEndpoints = true := by
  rfl

/-- Claim C5: no notebook program contains an exception handler, and
running any of them against any oracle of call outcomes returns exactly the
first error raised, unchanged, or ok when no call fails: SDK failures
propagate to the top level with no retry, recovery, or reclassification. -/
theorem claim_C5_theorem :
    notebookProgs.all handlerFree = true ∧
    ∀ p ∈ notebookProgs, ∀ oracle,
      runProg oracle p = firstError oracle (callsOf p) := by
  refine ⟨rfl, ?_⟩
  intro p hp oracle
  exact runProg_eq_firstError oracle p
    ((List.all_eq_true.mp (rfl : notebookProgs.all handlerFree = true)) p hp)

/-- Claim C5, witness: the AutoGluon program under an oracle that fails
every call surfaces that error unchanged. -/
theorem claim_C5_witness :
    runProg failingOracle (progOfNb autogluonNb) =
      firstError failingOracle (callsOf (progOfNb autogluonNb)) :=
  claim_C5_theorem.2 (progOfNb autogluonNb) (by decide) failingOracle

/-- Claim C6: none of the five source files of the snapshot defines
aws_s3_sync, sync_local_checkpoints_to_s3 or sync_s3_checkpoints_to_local;
the model-parallel notebook locates them in utils/pt_mnist.py, which is not
a file of the snapshot. -/
theorem claim_C6_theorem :
    (repoSourceFiles.all fun f =>
      syncHelperNames.all fun g => !(f.2.contains g)) = true ∧
    ((repoSourceFiles.map Prod.fst).contains syncHelperMentionedLocation) = false ∧
    syncHelperMentionedLocation = "utils/pt_mnist.py" := by
  exact ⟨rfl, rfl, rfl⟩

/-- Labels of the sampled frame: when every drawn label is within range,
the sample keeps exactly the drawn labels, in draw order. -/
theorem rowIndex_sampleRows (rows : List Row) :
    ∀ sel : List Nat, (∀ i ∈ sel, i < rows.length) →
      rowIndex (sampleRows rows sel) = sel := by
  intro sel
  induction sel with
  | nil => intro _; rfl
  | cons i is ih =>
      intro hb
      have hi : i < rows.length := hb i (by simp)
      have hg : rows.get? i = some (rows.get ⟨i, hi⟩) := List.get?_eq_get hi
      have htail := ih fun j hj => hb j (by simp [hj])
      simp only [sampleRows, rowIndex] at htail ⊢
      simp only [List.filterMap_cons, hg, Option.map_some', List.map_cons]
      rw [htail]

/-- Membership in the sampled frame: the rows whose label was drawn. -/
theorem mem_trainOf {rows : List Row} {sel : List Nat} {x : Nat × Row} :
    x ∈ trainOf rows sel ↔ x.1 ∈ sel ∧ rows.get? x.1 = some x.2 := by
  cases x with
  | mk i r =>
      simp only [trainOf, sampleRows, List.mem_filterMap]
      constructor
      · rintro ⟨j, hj, hf⟩
        cases hg : rows.get? j with
        | none => rw [hg] at hf; cases hf
        | some r2 =>
            rw [hg] at hf
            simp only [Option.map_some', Option.some.injEq, Prod.mk.injEq] at hf
            obtain ⟨rfl, rfl⟩ := hf
            exact ⟨hj, hg⟩
      · rintro ⟨hi, hg⟩
        exact ⟨i, hi, by rw [hg]; rfl⟩

/-- Membership in the frame read from CSV: the row at the label. -/
theorem mem_readCsv {rows : List Row} {x : Nat × Row} :
    x ∈ readCsv rows ↔ rows.get? x.1 = some x.2 :=
  List.mem_enum_iff_get?

/-- Membership in the dropped frame: the rows whose label was not drawn. -/
theorem mem_testOf {rows : List Row} {sel : List Nat} {x : Nat × Row} :
    x ∈ testOf rows sel ↔
      x ∈ readCsv rows ∧ x.1 ∉ rowIndex (trainOf rows sel) := by
  simp [testOf, dropByIndex, List.mem_filter]

/-- The frame read from CSV has no duplicate entries. -/
theorem nodup_readCsv (rows : List Row) : (readCsv rows).Nodup := by
  have h : ((readCsv rows).map Prod.fst).Nodup := by
    rw [readCsv, List.enum_map_fst]
    exact List.nodup_range _
  exact h.of_map

/-- Claim C7: the train/test split of the AutoGluon notebook is a
partition of the loaded dataset.  For any without-replacement draw sel of
valid row labels: no label appears in both train and test; train and test
together are a permutation of the dataset, covering every row exactly
once; and X_test has exactly the row labels of test, since dropping the
label column y touches no rows. -/
theorem claim_C7_theorem :
    ∀ (rows : List Row) (sel : List Nat),
      sel.Nodup → (∀ i ∈ sel, i < rows.length) →
      (∀ i, ¬(i ∈ rowIndex (trainOf rows sel) ∧
              i ∈ rowIndex (testOf rows sel))) ∧
      (trainOf rows sel ++ testOf rows sel).Perm (readCsv rows) ∧
      rowIndex (xTestOf rows sel) = rowIndex (testOf rows sel) := by
  intro rows sel hnd hb
  have hidx : rowIndex (trainOf rows sel) = sel := rowIndex_sampleRows rows sel hb
  have hdisj : ∀ i, ¬(i ∈ rowIndex (trainOf rows sel) ∧
      i ∈ rowIndex (testOf rows sel)) := by
    rintro i ⟨hit, hitest⟩
    obtain ⟨x, hx, rfl⟩ := List.mem_map.mp hitest
    exact (mem_testOf.mp hx).2 hit
  refine ⟨hdisj, ?_, ?_⟩
  · have h1 : (trainOf rows sel).Nodup := by
      have : (rowIndex (trainOf rows sel)).Nodup := by rw [hidx]; exact hnd
      exact this.of_map
    have h2 : (testOf rows sel).Nodup := (nodup_readCsv rows).filter _
    have hd : (trainOf rows sel).Disjoint (testOf rows sel) := by
      intro x hxt hxte
      exact (mem_testOf.mp hxte).2 (List.mem_map_of_mem Prod.fst hxt)
    have happ : (trainOf rows sel ++ testOf rows sel).Nodup :=
      List.nodup_append.mpr ⟨h1, h2, hd⟩
    rw [List.perm_ext_iff_of_nodup happ (nodup_readCsv rows)]
    intro a
    constructor
    · intro ha
      rcases List.mem_append.mp ha with hat | hate
      · exact mem_readCsv.mpr (mem_trainOf.mp hat).2
      · exact (mem_testOf.mp hate).1
    · intro ha
      by_cases hc : a.1 ∈ sel
      · exact List.mem_append.mpr (Or.inl (mem_trainOf.mpr ⟨hc, mem_readCsv.mp ha⟩))
      · exact List.mem_append.mpr (Or.inr (mem_testOf.mpr ⟨ha, by rwa [hidx]⟩))
  · simp [xTestOf, dropColumn, rowIndex, List.map_map, Function.comp]

/-- Claim C7, witness: the partition at a concrete three-row dataset with
the draw selecting row 1. -/
theorem claim_C7_witness :
    ([1] : List Nat).Nodup ∧ (∀ i ∈ ([1] : List Nat), i < rowsExample.length) ∧
    (trainOf rowsExample [1] ++ testOf rowsExample [1]).Perm (readCsv rowsExample) :=
  ⟨by decide, by decide,
    (claim_C7_theorem rowsExample [1] (by decide) (by decide)).2.1⟩

/-- Head-unfolding of the lexicographic comparison. -/
theorem strLexLe_cons (x y : Char) (xs ys : List Char) :
    strLexLe (x :: xs) (y :: ys) = true ↔
      x.toNat < y.toNat ∨ (x.toNat = y.toNat ∧ strLexLe xs ys = true) := by
  simp only [strLexLe]
  by_cases h1 : x.toNat < y.toNat
  · rw [if_pos h1]
    exact ⟨fun _ => Or.inl h1, fun _ => rfl⟩
  · rw [if_neg h1]
    by_cases h2 : y.toNat < x.toNat
    · rw [if_pos h2]
      constructor
      · intro h; cases h
      · rintro (h | ⟨h, _⟩) <;> omega
    · rw [if_neg h2]
      have h3 : x.toNat = y.toNat := by omega
      constructor
      · intro h; exact Or.inr ⟨h3, h⟩
      · rintro (h | ⟨_, h⟩)
        · omega
        · exact h

/-- Head-unfolding of the strict lexicographic comparison. -/
theorem strLexLt_cons (x y : Char) (xs ys : List Char) :
    strLexLt (x :: xs) (y :: ys) = true ↔
      x.toNat < y.toNat ∨ (x.toNat = y.toNat ∧ strLexLt xs ys = true) := by
  simp only [strLexLt]
  by_cases h1 : x.toNat < y.toNat
  · rw [if_pos h1]
    exact ⟨fun _ => Or.inl h1, fun _ => rfl⟩
  · rw [if_neg h1]
    by_cases h2 : y.toNat < x.toNat
    · rw [if_pos h2]
      constructor
      · intro h; cases h
      · rintro (h | ⟨h, _⟩) <;> omega
    · rw [if_neg h2]
      have h3 : x.toNat = y.toNat := by omega
      constructor
      · intro h; exact Or.inr ⟨h3, h⟩
      · rintro (h | ⟨_, h⟩)
        · omega
        · exact h

/-- The lexicographic comparison is total. -/
theorem strLexLe_total :
    ∀ a b : List Char, strLexLe a b = true ∨ strLexLe b a = true := by
  intro a
  induction a with
  | nil => intro b; exact Or.inl rfl
  | cons x xs ih =>
      intro b
      cases b with
      | nil => exact Or.inr rfl
      | cons y ys =>
          rcases Nat.lt_trichotomy x.toNat y.toNat with h | h | h
          · exact Or.inl ((strLexLe_cons x y xs ys).mpr (Or.inl h))
          · rcases ih ys with hxy | hyx
            · exact Or.inl ((strLexLe_cons x y xs ys).mpr (Or.inr ⟨h, hxy⟩))
            · exact Or.inr ((strLexLe_cons y x ys xs).mpr (Or.inr ⟨h.symm, hyx⟩))
          · exact Or.inr ((strLexLe_cons y x ys xs).mpr (Or.inl h))

/-- The lexicographic comparison is transitive. -/
theorem strLexLe_trans :
    ∀ a b c : List Char, strLexLe a b = true → strLexLe b c = true →
      strLexLe a c = true := by
  intro a
  induction a with
  | nil => intro b c _ _; rfl
  | cons x xs ih =>
      intro b c hab hbc
      cases b with
      | nil => exact absurd hab (by simp [strLexLe])
      | cons y ys =>
          cases c with
          | nil => exact absurd hbc (by simp [strLexLe])
          | cons z zs =>
              rw [strLexLe_cons] at hab hbc ⊢
              rcases hab with h | ⟨he, hxs⟩ <;> rcases hbc with h2 | ⟨he2, hys⟩
              · exact Or.inl (by omega)
              · exact Or.inl (by omega)
              · exact Or.inl (by omega)
              · exact Or.inr ⟨by omega, ih ys zs hxs hys⟩

/-- The strict comparison is irreflexive. -/
theorem strLexLt_irrefl : ∀ a : List Char, strLexLt a a = false := by
  intro a
  induction a with
  | nil => rfl
  | cons x xs ih =>
      rw [Bool.eq_false_iff]
      intro h
      rcases (strLexLt_cons x x xs xs).mp h with h1 | ⟨_, h2⟩
      · omega
      · rw [ih] at h2; cases h2

/-- Strictly smaller means not weakly larger. -/
theorem strLexLt_not_le :
    ∀ a b : List Char, strLexLt a b = true → strLexLe b a = false := by
  intro a
  induction a with
  | nil =>
      intro b h
      cases b with
      | nil => cases h
      | cons y ys => rfl
  | cons x xs ih =>
      intro b h
      cases b with
      | nil => exact absurd h (by simp [strLexLt])
      | cons y ys =>
          rw [strLexLt_cons] at h
          rw [Bool.eq_false_iff]
          intro hle
          rw [strLexLe_cons] at hle
          rcases h with h | ⟨he, hlt⟩ <;> rcases hle with h2 | ⟨he2, hle2⟩
          · omega
          · omega
          · omega
          · rw [ih ys hlt] at hle2; cases hle2

/-- The keys of the category-id dict are the sorted names. -/
theorem categoryIds_map_fst (cl : List (String × String)) :
    (categoryIds cl).map Prod.fst = sortedNames cl := by
  rw [categoryIds, List.map_map]
  exact List.enum_map_snd _

/-- Looking up a dict with no duplicate keys finds the unique entry. -/
theorem dictGet?_eq_of_nodup :
    ∀ d : List (String × Nat), (d.map Prod.fst).Nodup →
      ∀ k v, (k, v) ∈ d → dictGet? d k = some v := by
  intro d
  induction d with
  | nil => intro _ k v h; cases h
  | cons x xs ih =>
      intro hnd k v hm
      simp only [List.map_cons, List.nodup_cons] at hnd
      obtain ⟨hx, hxs⟩ := hnd
      simp only [dictGet?, List.reverse_cons, List.find?_append]
      rcases List.mem_cons.mp hm with hx1 | htail
      · subst hx1
        have hnone : xs.reverse.find? (fun kv => kv.1 == k) = none := by
          rw [List.find?_eq_none]
          intro y hy hbeq
          have hyk : y.1 = k := by simpa using hbeq
          have hymem : y.1 ∈ xs.map Prod.fst :=
            List.mem_map_of_mem Prod.fst (List.mem_reverse.mp hy)
          rw [hyk] at hymem
          exact hx hymem
        rw [hnone]
        simp [Option.or, List.find?]
      · have hrec := ih hxs k v htail
        obtain ⟨q, hq, hq2⟩ := Option.map_eq_some'.mp hrec
        rw [hq]
        simp [Option.or, hq2]

/-- Claim C8: when the category names are pairwise distinct (the claim
identifies the distinct names with the sorted values of category_labels),
the category-id assignment is an order-preserving bijection onto 0..n-1:
the dict keys are exactly the sorted names, the ids are exactly 0..n-1,
the names are sorted, each name at position i looks up to id i, a
lexicographically smaller name sits at a strictly smaller position (hence
gets a strictly smaller id), and every manifest line carries exactly the
id looked up from the parent directory name of its image. -/
theorem claim_C8_theorem (cl : List (String × String))
    (hnd : (sortedNames cl).Nodup) :
    ((categoryIds cl).map Prod.fst = sortedNames cl) ∧
    ((categoryIds cl).map Prod.snd = List.range (sortedNames cl).length) ∧
    List.Sorted strLe (sortedNames cl) ∧
    (∀ i a, (sortedNames cl).get? i = some a →
      dictGet? (categoryIds cl) a = some i) ∧
    (∀ i j a b, (sortedNames cl).get? i = some a →
      (sortedNames cl).get? j = some b →
      strLexLt a.data b.data = true → i < j) ∧
    (∀ idx p cat, dictGet? (categoryIds cl) (partFromEnd p 1) = some cat →
      lstEntry (categoryIds cl) idx p =
        some (partFromEnd p 2 ++ ".lst",
          pad10 idx ++ "\t" ++ toString cat ++ "\t" ++ asPosix p ++ "\n")) := by
  have hsort : List.Sorted strLe (sortedNames cl) :=
    @List.sorted_insertionSort String strLe _
      ⟨fun a b => strLexLe_total a.data b.data⟩
      ⟨fun a b c => strLexLe_trans a.data b.data c.data⟩
      (cl.map Prod.snd)
  refine ⟨categoryIds_map_fst cl, ?_, hsort, ?_, ?_, ?_⟩
  · rw [categoryIds, List.map_map]
    exact List.enum_map_fst _
  · intro i a hi
    apply dictGet?_eq_of_nodup
    · rw [categoryIds_map_fst]; exact hnd
    · simp only [categoryIds, List.mem_map]
      exact ⟨(i, a), List.mem_enum_iff_get?.mpr hi, rfl⟩
  · intro i j a b hi hj hlt
    by_contra hij
    obtain ⟨hilen, hgi⟩ := List.get?_eq_some.mp hi
    obtain ⟨hjlen, hgj⟩ := List.get?_eq_some.mp hj
    rcases Nat.lt_or_ge j i with hji | hji2
    · have hp := List.pairwise_iff_get.mp hsort ⟨j, hjlen⟩ ⟨i, hilen⟩ hji
      rw [hgj, hgi] at hp
      have hp2 : strLexLe b.data a.data = true := hp
      rw [strLexLt_not_le a.data b.data hlt] at hp2
      cases hp2
    · have hieq : i = j := by omega
      subst hieq
      rw [hgi] at hgj
      subst hgj
      rw [strLexLt_irrefl a.data] at hlt
      cases hlt
  · intro idx p cat h
    simp [lstEntry, h]

/-- Claim C8, witness: the bijection facts at a concrete two-entry
category_labels dict. -/
theorem claim_C8_witness :
    (sortedNames catLabelsExample).Nodup ∧
    (categoryIds catLabelsExample).map Prod.fst = sortedNames catLabelsExample :=
  ⟨by decide, (claim_C8_theorem catLabelsExample (by decide)).1⟩

/-- Claim C9: the experiment-setup cell is idempotent on the set of
experiment names: afterwards the names are exactly the prior ones united
with SM-MP-DEMO, exactly one create happens when the name was absent and
none when it was present, and running the cell a second time changes
nothing and creates nothing. -/
theorem claim_C9_theorem :
    ∀ existing : List String,
      (∀ x, x ∈ (experimentSetupCell existing).1 ↔
        x ∈ existing ∨ x = "SM-MP-DEMO") ∧
      (experimentSetupCell existing).2 =
        (if "SM-MP-DEMO" ∈ existing then 0 else 1) ∧
      experimentSetupCell (experimentSetupCell existing).1 =
        ((experimentSetupCell existing).1, 0) := by
  intro existing
  by_cases h : "SM-MP-DEMO" ∈ existing
  · refine ⟨?_, ?_, ?_⟩
    · intro x
      simp only [experimentSetupCell, h, not_true, if_neg, ite_false,
        not_not, Decidable.not_not]
      constructor
      · exact fun hx => Or.inl hx
      · rintro (hx | rfl)
        · exact hx
        · exact h
    · simp [experimentSetupCell, h]
    · simp [experimentSetupCell, h]
  · refine ⟨?_, ?_, ?_⟩
    · intro x
      simp only [experimentSetupCell, h, not_false_iff, if_pos,
        List.mem_append, List.mem_singleton]
    · simp [experimentSetupCell, h]
    · have hmem : "SM-MP-DEMO" ∈ existing ++ ["SM-MP-DEMO"] := by
        simp
      simp [experimentSetupCell, h, hmem]

/-- Claim C10: no notebook statement creates a thread, process, or any
synchronization; the only parallelism settings anywhere are the MPI
processes_per_host value in the model-parallel estimator configuration and
the im2rec num-thread option of the preprocessing shell calls, each a
parameter handed to an external tool or service. -/
theorem claim_C10_theorem :
    (notebooks.all fun nb => nb.all fun s => !isConcurrencyStmt s) = true ∧
    notebooks.map externalParallelismParams =
      [[("processes_per_host", "2")],
       [("num-thread", "16"), ("num-thread", "16")],
       [], [], [], [], []] := by
  exact ⟨rfl, rfl⟩

end SMExamples
